import Mathlib

/-!
Verification of the service-lifecycle core of `ollama-mcp-bridge`.

The TypeScript sources are shallowly embedded as pure Lean functions:

* `src/service/errors.ts`   → `ErrorCode`, `SvcErr`
* `src/service/types.ts`    → `ServiceState`, `ServiceStatus`, `ServiceConfig`
* `src/service/health.ts`   → `responseOk`, `serviceHealthCheck`,
                              `effectiveMaxAttempts`, `waitLoop`, `waitForHealthRun`
* `src/service/base.ts` (BaseServiceManager)
                            → `checkHealthOp`, `getStatusOp`, `mWaitLoop`,
                              `managerWaitForHealth`
* `src/platform/unix/process.ts`   → `jsParseInt`, `unixFindProcess`,
                              `unixStopProcess`, `unixForceStopProcess`,
                              `unixStartService`, `unixStopService`
* `src/platform/windows/process.ts` / `service.ts`
                            → `winFindPid`, `windowsFindProcess`,
                              `windowsStopProcess`, `windowsStartService`,
                              `windowsStopService`

Asynchrony is modelled by explicit state passing.  External effects
(HTTP health probes, `pgrep`/`tasklist` lookups, `kill`/`taskkill`
commands, process spawns) are oracles in a `World`: each kind of call is
numbered and the oracle gives the outcome of the k-th call.  The manager
state `MState` carries the mutable `ServiceStatus`, the call counters and
a chronological log of the process-control primitives invoked.  Wall
clock time inside the health-wait loop is modelled by a counter that
advances by the probe duration at each check and by `interval` at each
sleep, with the loop start at instant 0.
-/

namespace OllamaBridge

/-- The five service states of `ServiceStatus.state` in `src/service/types.ts`. -/
inductive ServiceState where
  | starting
  | running
  | stopping
  | stopped
  | error
deriving DecidableEq, Repr

/-- Record `ServiceStatus` from `src/service/types.ts`: `running`, `state`,
optional `pid` and `lastError`. -/
structure ServiceStatus where
  running : Bool
  state : ServiceState
  pid : Option Int
  lastError : Option String
deriving DecidableEq, Repr

/-- The status a `BaseServiceManager` is constructed with:
`{ running: false, state: 'stopped' }`. -/
def initialStatus : ServiceStatus :=
  { running := false, state := ServiceState.stopped, pid := none, lastError := none }

/-- The `healthCheck` part of `ServiceConfig` (`src/service/health.ts`):
`timeout`, `interval`, optional `maxAttempts`. -/
structure HealthCheckConfig where
  timeout : Nat
  interval : Nat
  maxAttempts : Option Nat
deriving DecidableEq, Repr

/-- Record `ServiceConfig` from `src/service/types.ts`. -/
structure ServiceConfig where
  command : String
  port : Nat
  healthCheck : HealthCheckConfig
deriving DecidableEq, Repr

/-- Record `ProcessInfo` from `src/platform/types.ts`, the value returned by
`findProcess`.  The pid is an `Int` because it is produced by JavaScript
`parseInt`. -/
structure ProcessInfo where
  pid : Int
  name : String
deriving DecidableEq, Repr

/-- The `operation` discriminant of `ProcessError` in `src/service/errors.ts`. -/
inductive ProcOperation where
  | start
  | stop
  | find
deriving DecidableEq, Repr

/-- The error taxonomy of `src/service/errors.ts`.  Each constructor keeps
the `message` and the contextual payload of the corresponding class;
`platformError` keeps its wrapped `cause`.  (`instanceof` tests in the
source distinguish exactly these constructors.) -/
inductive SvcErr where
  | processError (message : String) (processName : String) (operation : ProcOperation)
  | serviceError (message : String) (status : ServiceStatus)
  | timeoutError (message : String) (operation : String) (timeoutMs : Nat)
  | healthCheckError (message : String) (status : ServiceStatus) (attempts : Nat)
  | platformError (message : String) (platform : String) (operation : String) (cause : SvcErr)
deriving DecidableEq, Repr

/-- Test `error instanceof ProcessError || error instanceof ServiceError`:
the test both platform managers use in their catch blocks to decide
between re-throwing and wrapping.  `TimeoutError` and `HealthCheckError`
extend `BridgeError`, not `ServiceError`, so they fail this test. -/
def isRethrownUnchanged : SvcErr → Bool
  | SvcErr.processError _ _ _ => true
  | SvcErr.serviceError _ _ => true
  | _ => false

/-- The catch block of the platform managers: re-throw `ProcessError` and
`ServiceError` unchanged, wrap everything else in a `PlatformError`. -/
def wrapPlatform (message platform operation : String) (e : SvcErr) : SvcErr :=
  if isRethrownUnchanged e then e else SvcErr.platformError message platform operation e

/-! ## Health probe (`ServiceHealthChecker.check`, `src/service/health.ts`)

A single `fetch` of `http://127.0.0.1:{port}{endpoint}` is modelled by
its outcome: `Except.error ()` when the transport throws (connection
refused, timeout, ...), `Except.ok status` when an HTTP response with
the given status code arrives.  `response.ok` is the WHATWG definition:
status in the range 200..299. -/

/-- Predicate `response.ok`: the status code lies in the 2xx success class. -/
def responseOk (status : Nat) : Bool :=
  decide (200 ≤ status) && decide (status < 300)

/-- Model of `ServiceHealthChecker.check`: `true` iff the transport succeeded and
the response was 2xx; every transport exception is caught and becomes
`false`.  `port` and `endpoint` only select the URL probed; `fetchResult`
is the outcome of that single request. -/
def serviceHealthCheck (_port : Nat) (_endpoint : String)
    (fetchResult : Except Unit Nat) : Bool :=
  match fetchResult with
  | Except.ok status => responseOk status
  | Except.error _ => false

/-! ## `waitForHealth` (`src/service/health.ts`)

The probe outcome of the k-th check is `probe k`; the k-th check takes
`dur k` milliseconds of wall-clock time.  The loop starts at instant 0;
`Date.now() - start` at the elapsed-time test directly after the k-th
failed check is therefore `now + dur k` where `now` is the instant the
check began. -/

/-- The three ways `waitForHealth` can finish: normal return, throwing
`TimeoutError` (carrying `config.timeout`), or throwing
`HealthCheckError` (carrying `attempts`). -/
inductive HealthWaitResult where
  | success
  | timedOut (timeoutMs : Nat)
  | exhausted (attempts : Nat)
deriving DecidableEq, Repr

/-- Computation `const maxAttempts = config.maxAttempts || Math.floor(config.timeout /
config.interval)`.  JavaScript `||` treats `0` and `undefined` alike, so
`maxAttempts: 0` also falls back to the quotient. -/
def effectiveMaxAttempts (cfg : HealthCheckConfig) : Nat :=
  match cfg.maxAttempts with
  | some n => if n = 0 then cfg.timeout / cfg.interval else n
  | none => cfg.timeout / cfg.interval

/-- The `while (attempts < maxAttempts)` loop of `waitForHealth`,
structurally recursing on `remaining = maxAttempts - attempts`.
Each iteration: probe; on success return; else if elapsed `>= timeout`
throw the timeout error; else increment `attempts`, sleep `interval`. -/
def waitLoop (probe : Nat → Bool) (dur : Nat → Nat) (timeout interval : Nat) :
    Nat → Nat → Nat → HealthWaitResult
  | 0, attempts, _now => HealthWaitResult.exhausted attempts
  | remaining + 1, attempts, now =>
    let afterCheck := now + dur attempts
    if probe attempts then HealthWaitResult.success
    else if timeout ≤ afterCheck then HealthWaitResult.timedOut timeout
    else waitLoop probe dur timeout interval remaining (attempts + 1) (afterCheck + interval)

/-- Function `waitForHealth` itself: run the loop with `attempts = 0` from
instant 0 with the effective attempt budget. -/
def waitForHealthRun (probe : Nat → Bool) (dur : Nat → Nat)
    (cfg : HealthCheckConfig) : HealthWaitResult :=
  waitLoop probe dur cfg.timeout cfg.interval (effectiveMaxAttempts cfg) 0 0

/-! ## JavaScript integer parsing (`parseInt(stdout.trim(), 10)`) -/

/-- Value of a list of decimal digit characters, most significant first. -/
def digitsVal (ds : List Char) : Nat :=
  ds.foldl (fun acc c => acc * 10 + (c.toNat - 48)) 0

/-- Split off the maximal leading run of decimal digits. -/
def takeDigits : List Char → List Char × List Char
  | [] => ([], [])
  | c :: cs =>
    if c.isDigit then
      let (ds, rest) := takeDigits cs
      (c :: ds, rest)
    else ([], c :: cs)

/-- ASCII whitespace, as trimmed by `String.prototype.trim`. -/
def isJsWs (c : Char) : Bool :=
  c = ' ' || c = '\t' || c = '\n' || c = '\r'

/-- Model of `stdout.trim()`: strip whitespace from both ends. -/
def trimChars (cs : List Char) : List Char :=
  ((cs.dropWhile isJsWs).reverse.dropWhile isJsWs).reverse

/-- Model of `parseInt(s, 10)`: skip leading whitespace, read an optional sign and
then the maximal run of decimal digits; `none` models `NaN` (no digit
found).  Trailing garbage is ignored, as in JavaScript. -/
def jsParseInt (s : String) : Option Int :=
  let cs := trimChars s.data
  match cs with
  | '-' :: rest =>
    match takeDigits rest with
    | ([], _) => none
    | (ds, _) => some (-(digitsVal ds : Int))
  | '+' :: rest =>
    match takeDigits rest with
    | ([], _) => none
    | (ds, _) => some (digitsVal ds : Int)
  | _ =>
    match takeDigits cs with
    | ([], _) => none
    | (ds, _) => some (digitsVal ds : Int)

/-! ## `findProcess` at the string level

`UnixProcessManager.findProcess` runs `pgrep name` and does
`const pid = parseInt(stdout.trim(), 10); return pid ? { pid, name } : null`,
with the whole body in a `try { ... } catch { return null }`.
`WindowsProcessManager.findProcess` runs `tasklist` and matches the first
occurrence of the regex `"name","([0-9]+)"` in the CSV output.
The command outcome is `Except.error ()` when the command fails (for
`pgrep`, also when no process matches), `Except.ok stdout` otherwise. -/

/-- Model of `pid ? \x7b pid, name \x7d : null` after `parseInt`: JavaScript treats both
`NaN` and `0` as falsy, so only a nonzero parse yields a `ProcessInfo`. -/
def unixFindProcess (name : String) (execResult : Except Unit String) :
    Option ProcessInfo :=
  match execResult with
  | Except.error _ => none
  | Except.ok stdout =>
    match jsParseInt stdout with
    | none => none
    | some pid => if pid = 0 then none else some { pid := pid, name := name }

/-- One attempted match of `"name","([0-9]+)"` at the current position:
the literal `"name","` followed by at least one digit followed by `"`.
Returns the captured digit run on success. -/
def winMatchAt (name : String) (cs : List Char) : Option (List Char) :=
  let pat : List Char := '"' :: name.data ++ ('"' :: ',' :: '"' :: [])
  if cs.take pat.length = pat then
    match takeDigits (cs.drop pat.length) with
    | ([], _) => none
    | (ds, rest) => if rest.take 1 = ['"'] then some ds else none
  else none

/-- First match of the regex in the output, scanning left to right. -/
def winFindPid (name : String) : List Char → Option (List Char)
  | [] => none
  | c :: rest =>
    match winMatchAt name (c :: rest) with
    | some ds => some ds
    | none => winFindPid name rest

/-- Model of `WindowsProcessManager.findProcess`: `null` when the command fails or
no CSV row for the image name is found; otherwise the pid captured by
`"name","([0-9]+)"` parsed with `parseInt(match[1], 10)`.  Any digit
string is accepted, including `"0"`. -/
def windowsFindProcess (name : String) (execResult : Except Unit String) :
    Option ProcessInfo :=
  match execResult with
  | Except.error _ => none
  | Except.ok stdout =>
    match winFindPid name stdout.data with
    | none => none
    | some ds => some { pid := (digitsVal ds : Int), name := name }

/-! ## The service manager as a state machine

`World` fixes the outcome of every external call in advance: the k-th
health probe, the k-th `findProcess` lookup, the k-th graceful stop
command (`kill` / `taskkill`), the k-th forced stop command
(`kill -9` / `taskkill /F`) and the k-th spawn.  `MState` is the
manager's mutable state: its `ServiceStatus`, the call counters and a
chronological log of process-control primitives invoked. -/

/-- The process-control primitives, for the invocation log. -/
inductive PrimOp where
  | find
  | gracefulStop
  | forceStop
  | spawn
deriving DecidableEq, Repr

/-- Oracles for the outcomes of external calls. -/
structure World where
  health : Nat → Bool
  findRes : Nat → Option Int
  stopOk : Nat → Bool
  forceOk : Nat → Bool
  spawnOk : Nat → Bool

/-- Manager state: status plus external-call bookkeeping. -/
structure MState where
  status : ServiceStatus
  healthCalls : Nat
  findCalls : Nat
  stopCalls : Nat
  forceCalls : Nat
  spawnCalls : Nat
  ops : List PrimOp
deriving Repr

/-- The state of a freshly constructed manager. -/
def initState : MState :=
  { status := initialStatus, healthCalls := 0, findCalls := 0, stopCalls := 0,
    forceCalls := 0, spawnCalls := 0, ops := [] }

/-- Model of `BaseServiceManager.checkHealth`: one probe, no status change.  A
health probe is not a process-control primitive, so it is not logged. -/
def checkHealthOp (w : World) (s : MState) : MState × Bool :=
  ({ s with healthCalls := s.healthCalls + 1 }, w.health s.healthCalls)

/-- One `findProcess` call at the manager level (its outcome given by the
oracle). -/
def findProcessOp (w : World) (s : MState) : MState × Option Int :=
  ({ s with findCalls := s.findCalls + 1, ops := s.ops ++ [PrimOp.find] },
   w.findRes s.findCalls)

/-- One graceful stop command (`kill pid` / `taskkill /IM name`); `false`
means the command failed (its promise rejected). -/
def gracefulStopOp (w : World) (s : MState) : MState × Bool :=
  ({ s with stopCalls := s.stopCalls + 1, ops := s.ops ++ [PrimOp.gracefulStop] },
   w.stopOk s.stopCalls)

/-- One forced stop command (`kill -9 pid` / `taskkill /F /IM name`). -/
def forceStopOp (w : World) (s : MState) : MState × Bool :=
  ({ s with forceCalls := s.forceCalls + 1, ops := s.ops ++ [PrimOp.forceStop] },
   w.forceOk s.forceCalls)

/-- One spawn (`exec(command)`); `false` models a synchronous throw. -/
def spawnOp (w : World) (s : MState) : MState × Bool :=
  ({ s with spawnCalls := s.spawnCalls + 1, ops := s.ops ++ [PrimOp.spawn] },
   w.spawnOk s.spawnCalls)

/-- Merge `updateStatus` with a partial update, as the spread
`{ ...this.status, ...update }`: only the supplied fields change. -/
def setStateField (s : MState) (st : ServiceState) : MState :=
  { s with status := { s.status with state := st } }

/-- Merge `updateStatus` with the full update `running: false, state: 'stopped'`. -/
def setStoppedStatus (s : MState) : MState :=
  { s with status := { s.status with running := false, state := ServiceState.stopped } }

/-- Model of `BaseServiceManager.getStatus`: refresh `running` from a fresh
`checkHealth()`, set `state` to `'running'`/`'stopped'` accordingly, and
return a copy of the (mutated) stored status. -/
def getStatusOp (w : World) (s : MState) : MState × ServiceStatus :=
  let (s1, h) := checkHealthOp w s
  let st : ServiceStatus :=
    { s1.status with
      running := h
      state := if h then ServiceState.running else ServiceState.stopped }
  ({ s1 with status := st }, st)

/-- Model of `UnixProcessManager.stopProcess`: find the process; when found, run
`kill pid` (whose failure rejects) and sleep 1s; when not found, return. -/
def unixStopProcess (w : World) (s : MState) : MState × Except Unit Unit :=
  let (s1, p) := findProcessOp w s
  match p with
  | some _ =>
    let (s2, ok) := gracefulStopOp w s1
    if ok then (s2, Except.ok ()) else (s2, Except.error ())
  | none => (s1, Except.ok ())

/-- Model of `UnixProcessManager.forceStopProcess`: find, then `kill -9 pid`. -/
def unixForceStopProcess (w : World) (s : MState) : MState × Except Unit Unit :=
  let (s1, p) := findProcessOp w s
  match p with
  | some _ =>
    let (s2, ok) := forceStopOp w s1
    if ok then (s2, Except.ok ()) else (s2, Except.error ())
  | none => (s1, Except.ok ())

/-- Model of `WindowsProcessManager.stopProcess`: `taskkill /IM name`; on failure
it catches the error and escalates to `forceStopProcess` itself, whose
failure then rejects. -/
def windowsStopProcess (w : World) (s : MState) : MState × Except Unit Unit :=
  let (s1, ok) := gracefulStopOp w s
  if ok then (s1, Except.ok ())
  else
    let (s2, fok) := forceStopOp w s1
    if fok then (s2, Except.ok ()) else (s2, Except.error ())

/-- Model of `WindowsProcessManager.forceStopProcess`: `taskkill /F /IM name`
directly, with no lookup. -/
def windowsForceStopProcess (w : World) (s : MState) : MState × Except Unit Unit :=
  let (s1, ok) := forceStopOp w s
  if ok then (s1, Except.ok ()) else (s1, Except.error ())

/-- Model of `isProcessRunning`: `findProcess(name) !== null` (both platforms). -/
def isProcessRunningOp (w : World) (s : MState) : MState × Bool :=
  let (s1, p) := findProcessOp w s
  (s1, p.isSome)

/-! ## Manager-level `waitForHealth`

`BaseServiceManager.waitForHealth` calls the free `waitForHealth` with
`{ timeout, interval }` only — it does not forward
`config.healthCheck.maxAttempts` — and with `() => this.getStatus()` as
the status supplier, which mutates the stored status when invoked.
All oracle calls are instantaneous here; time advances only at sleeps. -/

/-- The `waitForHealth` loop run against the manager: the status
snapshot fetched before throwing is a real `getStatus` call (consuming a
probe and rewriting the stored status).  The snapshot fetched on the
timeout path is discarded by the source, which puts `config.timeout`
into the `TimeoutError` instead. -/
def mWaitLoop (w : World) (timeout interval : Nat) :
    Nat → Nat → Nat → MState → MState × Except SvcErr Unit
  | 0, attempts, _now, s =>
    let (s1, st) := getStatusOp w s
    (s1, Except.error (SvcErr.healthCheckError
      "Health check failed after maximum attempts" st attempts))
  | remaining + 1, attempts, now, s =>
    let (s1, h) := checkHealthOp w s
    if h then (s1, Except.ok ())
    else if timeout ≤ now then
      let (s2, _st) := getStatusOp w s1
      (s2, Except.error (SvcErr.timeoutError "Health check timed out"
        "health_check" timeout))
    else mWaitLoop w timeout interval remaining (attempts + 1) (now + interval) s1

/-- Model of `BaseServiceManager.waitForHealth`: since `maxAttempts` is not
forwarded, the effective budget is always `floor(timeout / interval)`. -/
def managerWaitForHealth (w : World) (cfg : ServiceConfig) (s : MState) :
    MState × Except SvcErr Unit :=
  mWaitLoop w cfg.healthCheck.timeout cfg.healthCheck.interval
    (cfg.healthCheck.timeout / cfg.healthCheck.interval) 0 0 s

/-! ## `UnixServiceManager` (`src/platform/unix/process.ts`) -/

/-- Model of `UnixServiceManager.startService`.  Shape of the source: return at
once when already healthy; set `state: 'starting'`; stop a stray
`ollama` process (failure → `ProcessError` stop); spawn the command
(failure → `ProcessError` start); `waitForHealth`.  The outer catch
re-throws `ProcessError`/`ServiceError` and wraps anything else in a
`PlatformError`.  No branch ever sets `state: 'error'` or `lastError`. -/
def unixStartService (w : World) (cfg : ServiceConfig) (s : MState) :
    MState × Except SvcErr Unit :=
  let (s1, h) := checkHealthOp w s
  if h then (s1, Except.ok ())
  else
    let s2 := setStateField s1 ServiceState.starting
    let (s3, strayRunning) := isProcessRunningOp w s2
    let stray : MState × Except SvcErr Unit :=
      if strayRunning then
        let (s4, r) := unixStopProcess w s3
        match r with
        | Except.ok _ => (s4, Except.ok ())
        | Except.error _ =>
          (s4, Except.error (SvcErr.processError "Failed to stop existing process"
            "ollama" ProcOperation.stop))
      else (s3, Except.ok ())
    match stray with
    | (s4, Except.error e) =>
      (s4, Except.error (wrapPlatform "Failed to start service on Unix platform"
        "unix" "start" e))
    | (s4, Except.ok _) =>
      let (s5, spawned) := spawnOp w s4
      if spawned then
        match managerWaitForHealth w cfg s5 with
        | (s6, Except.ok _) => (s6, Except.ok ())
        | (s6, Except.error e) =>
          (s6, Except.error (wrapPlatform "Failed to start service on Unix platform"
            "unix" "start" e))
      else
        (s5, Except.error (wrapPlatform "Failed to start service on Unix platform"
          "unix" "start"
          (SvcErr.processError "Failed to start process" "ollama" ProcOperation.start)))

/-- Model of `UnixServiceManager.stopService`.  It does **not** consult
`checkHealth` first: it sets `state: 'stopping'` and calls
`stopProcess('ollama')` unconditionally (which always performs a
`findProcess`).  On success it sets `{ running: false, state: 'stopped' }`;
on failure it throws `ProcessError` (re-thrown unchanged by the catch).
There is no forced-stop escalation and no transition to `'error'`. -/
def unixStopService (w : World) (s : MState) : MState × Except SvcErr Unit :=
  let s1 := setStateField s ServiceState.stopping
  let (s2, r) := unixStopProcess w s1
  match r with
  | Except.ok _ => (setStoppedStatus s2, Except.ok ())
  | Except.error _ =>
    (s2, Except.error (wrapPlatform "Failed to stop service on Unix platform"
      "unix" "stop"
      (SvcErr.processError "Failed to stop process" "ollama" ProcOperation.stop)))

/-! ## `WindowsServiceManager` (`src/platform/windows/service.ts`) -/

/-- Model of `WindowsServiceManager.startService`: same shape as Unix with image
name `ollama.exe`, `WindowsProcessManager.stopProcess` (which itself
escalates internally) and platform `windows`. -/
def windowsStartService (w : World) (cfg : ServiceConfig) (s : MState) :
    MState × Except SvcErr Unit :=
  let (s1, h) := checkHealthOp w s
  if h then (s1, Except.ok ())
  else
    let s2 := setStateField s1 ServiceState.starting
    let (s3, strayRunning) := isProcessRunningOp w s2
    let stray : MState × Except SvcErr Unit :=
      if strayRunning then
        let (s4, r) := windowsStopProcess w s3
        match r with
        | Except.ok _ => (s4, Except.ok ())
        | Except.error _ =>
          (s4, Except.error (SvcErr.processError "Failed to stop existing process"
            "ollama.exe" ProcOperation.stop))
      else (s3, Except.ok ())
    match stray with
    | (s4, Except.error e) =>
      (s4, Except.error (wrapPlatform "Failed to start service on Windows platform"
        "windows" "start" e))
    | (s4, Except.ok _) =>
      let (s5, spawned) := spawnOp w s4
      if spawned then
        match managerWaitForHealth w cfg s5 with
        | (s6, Except.ok _) => (s6, Except.ok ())
        | (s6, Except.error e) =>
          (s6, Except.error (wrapPlatform "Failed to start service on Windows platform"
            "windows" "start" e))
      else
        (s5, Except.error (wrapPlatform "Failed to start service on Windows platform"
          "windows" "start"
          (SvcErr.processError "Failed to start process" "ollama.exe" ProcOperation.start)))

/-- The post-stop confirmation loop of `WindowsServiceManager.stopService`:
`while (attempts < 5) { if (!checkHealth()) break; sleep(1s); attempts++ }`. -/
def winStopPoll (w : World) : Nat → MState → MState
  | 0, s => s
  | n + 1, s =>
    let (s1, h) := checkHealthOp w s
    if h then winStopPoll w n s1 else s1

/-- Model of `WindowsServiceManager.stopService`.  If not healthy: set
`{ running: false, state: 'stopped' }` and return with no process
operation.  Otherwise set `'stopping'`, call `stopProcess` (internal
graceful→forced escalation), poll health up to 5 times, set `'stopped'`.
If `stopProcess` rejected, the catch calls `forceStopProcess` once more;
its failure throws `ProcessError`, re-thrown unchanged by the outer
catch.  No branch sets `state: 'error'` or `lastError`. -/
def windowsStopService (w : World) (s : MState) : MState × Except SvcErr Unit :=
  let (s1, h) := checkHealthOp w s
  if !h then (setStoppedStatus s1, Except.ok ())
  else
    let s2 := setStateField s1 ServiceState.stopping
    let (s3, r) := windowsStopProcess w s2
    match r with
    | Except.ok _ =>
      let s4 := winStopPoll w 5 s3
      (setStoppedStatus s4, Except.ok ())
    | Except.error _ =>
      let (s4, fr) := windowsForceStopProcess w s3
      match fr with
      | Except.ok _ => (setStoppedStatus s4, Except.ok ())
      | Except.error _ =>
        (s4, Except.error (wrapPlatform "Failed to stop service on Windows platform"
          "windows" "stop"
          (SvcErr.processError "Failed to force stop process" "ollama.exe"
            ProcOperation.stop)))

/-! ## Shared concrete fixtures used by several theorems below -/

/-- The default configuration of the repository: `ollama serve` on port
11434 with a 5000 ms / 1000 ms health budget and no explicit attempt cap. -/
def cfgDefault : ServiceConfig :=
  { command := "ollama serve", port := 11434,
    healthCheck := { timeout := 5000, interval := 1000, maxAttempts := none } }

/-- World in which every external call succeeds but every health probe fails. -/
def wAllFail : World :=
  { health := fun _ => false, findRes := fun _ => none,
    stopOk := fun _ => true, forceOk := fun _ => true, spawnOk := fun _ => true }

/-- World in which the service is healthy and every command succeeds. -/
def wAllTrue : World :=
  { health := fun _ => true, findRes := fun _ => some 42,
    stopOk := fun _ => true, forceOk := fun _ => true, spawnOk := fun _ => true }

/-- World in which the service is healthy, a process is found, and both
the graceful and the forced stop commands fail. -/
def wStopFail : World :=
  { health := fun _ => true, findRes := fun _ => some 42,
    stopOk := fun _ => false, forceOk := fun _ => false, spawnOk := fun _ => true }

/-- World whose probe succeeds on every call except the second (call
index 1): a service that is up, dies, and is up again. -/
def wBlip : World :=
  { health := fun k => decide (k ≠ 1), findRes := fun _ => none,
    stopOk := fun _ => true, forceOk := fun _ => true, spawnOk := fun _ => true }

/-- World with an unhealthy service, a stray process present, and
failing stop commands. -/
def wStrayStopFail : World :=
  { health := fun _ => false, findRes := fun _ => some 42,
    stopOk := fun _ => false, forceOk := fun _ => false, spawnOk := fun _ => true }

/-- World whose probe fails on the first call (index 0) and succeeds on
every later call. -/
def wFlip : World :=
  { health := fun k => decide (0 < k), findRes := fun _ => none,
    stopOk := fun _ => true, forceOk := fun _ => true, spawnOk := fun _ => true }

/-! ## Helper lemmas -/

/-- An exhausted exit of the wait loop always carries
`attempts + remaining`: the loop increments `attempts` once per
iteration and only exhausts when `remaining` hits zero. -/
theorem waitLoop_exhausted_count (probe : Nat → Bool) (dur : Nat → Nat)
    (timeout interval : Nat) :
    ∀ remaining attempts now a,
      waitLoop probe dur timeout interval remaining attempts now =
        HealthWaitResult.exhausted a →
      a = attempts + remaining := by
  intro remaining
  induction remaining with
  | zero =>
    intro attempts now a h
    simp [waitLoop] at h
    omega
  | succ r ih =>
    intro attempts now a h
    rw [waitLoop] at h
    by_cases hp : probe attempts
    · simp [hp] at h
    · by_cases ht : timeout ≤ now + dur attempts
      · simp [hp, ht] at h
      · simp [hp, ht] at h
        have := ih (attempts + 1) (now + dur attempts + interval) a h
        omega

/-- When every probe fails and the wall clock stays below `timeout`
throughout, the manager-level wait loop exhausts its budget: it consumes
`remaining + 1` probes (the loop plus the final `getStatus` snapshot),
leaves the op log untouched, rewrites the status to
`running: false, state: 'stopped'` via the final `getStatus`, and throws
the `HealthCheckError` with `attempts + remaining`. -/
theorem mWaitLoop_allFail (w : World) (timeout interval : Nat)
    (hh : ∀ k, w.health k = false) :
    ∀ remaining attempts now s,
      (∀ j, j < remaining → now + j * interval < timeout) →
      mWaitLoop w timeout interval remaining attempts now s =
        ({ s with
            healthCalls := s.healthCalls + remaining + 1
            status := { s.status with running := false, state := ServiceState.stopped } },
         Except.error (SvcErr.healthCheckError
           "Health check failed after maximum attempts"
           { s.status with running := false, state := ServiceState.stopped }
           (attempts + remaining))) := by
  intro remaining
  induction remaining with
  | zero =>
    intro attempts now s _
    simp [mWaitLoop, getStatusOp, checkHealthOp, hh]
  | succ r ih =>
    intro attempts now s hbound
    rw [mWaitLoop]
    have h0 : now < timeout := by
      have := hbound 0 (Nat.succ_pos r)
      simpa using this
    simp only [checkHealthOp, hh, if_neg, Bool.false_eq_true, if_false,
      Nat.not_le.mpr h0]
    have hrec := ih (attempts + 1) (now + interval)
      { s with healthCalls := s.healthCalls + 1 }
      (by
        intro j hj
        have := hbound (j + 1) (by omega)
        calc now + interval + j * interval
            = now + (j + 1) * interval := by ring
          _ < timeout := this)
    rw [hrec]
    have e1 : s.healthCalls + 1 + r + 1 = s.healthCalls + (r + 1) + 1 := by omega
    have e2 : attempts + 1 + r = attempts + (r + 1) := by omega
    simp [e1, e2]

/-- For `j < t / i` the elapsed time `j * i` stays strictly below `t`
(when `i` is positive): the attempt budget `floor(t / i)` is always
exhausted before the wall-clock timeout can fire. -/
theorem elapsed_lt_of_lt_div (t i : Nat) (hi : 0 < i) :
    ∀ j, j < t / i → 0 + j * i < t := by
  intro j hj
  have h1 : j + 1 ≤ t / i := hj
  have h2 : (j + 1) * i ≤ (t / i) * i := Nat.mul_le_mul_right i h1
  have h3 : (t / i) * i ≤ t := Nat.div_mul_le_self t i
  have h4 : j * i + i ≤ t := by
    calc j * i + i = (j + 1) * i := by ring
      _ ≤ (t / i) * i := h2
      _ ≤ t := h3
  omega

/-! ## Claim theorems -/

/-- C1: for every health-check configuration and every probe that always
fails, whenever `waitForHealth` exits with the attempt-exhaustion error
it carries exactly the effective attempt budget; and with
`timeout=5000ms, interval=1000ms, maxAttempts=3` and promptly-returning
probe calls, the result is the attempt-exhaustion error with
`attempts = 3`, not the timeout error. -/
theorem waitForHealth_exhaustion_is_attempt_error (cfg : HealthCheckConfig)
    (probe : Nat → Bool) (dur : Nat → Nat)
    (hfail : ∀ k, probe k = false) (a : Nat)
    (hexit : waitForHealthRun probe dur cfg = HealthWaitResult.exhausted a) :
    a = effectiveMaxAttempts cfg ∧
    waitForHealthRun (fun _ => false) (fun _ => 0)
      { timeout := 5000, interval := 1000, maxAttempts := some 3 } =
      HealthWaitResult.exhausted 3 ∧
    waitForHealthRun (fun _ => false) (fun _ => 0)
      { timeout := 5000, interval := 1000, maxAttempts := some 3 } ≠
      HealthWaitResult.timedOut 5000 := by
  refine ⟨?_, by decide, by decide⟩
  have h := waitLoop_exhausted_count probe dur cfg.timeout cfg.interval
    (effectiveMaxAttempts cfg) 0 0 a hexit
  omega

/-- Witness for C1: the concrete configuration of the spec scenario,
with the always-failing prompt probe, exhausts at exactly 3 attempts. -/
theorem waitForHealth_exhaustion_is_attempt_error_witness :
    (∀ k, (fun _ => false : Nat → Bool) k = false) ∧
    (3 : Nat) = effectiveMaxAttempts
      { timeout := 5000, interval := 1000, maxAttempts := some 3 } := by
  refine ⟨fun _ => rfl, ?_⟩
  exact (waitForHealth_exhaustion_is_attempt_error
    { timeout := 5000, interval := 1000, maxAttempts := some 3 }
    (fun _ => false) (fun _ => 0) (fun _ => rfl) 3 (by decide)).1

/-- C3 counterexample: with `maxAttempts = 0` present, `waitForHealth`
does **not** use `0` as the budget: an always-failing prompt probe under
`timeout=5000, interval=1000, maxAttempts=0` runs
`floor(5000/1000) = 5` attempts, not `0`. -/
theorem maxAttempts_zero_counterexample :
    waitForHealthRun (fun _ => false) (fun _ => 0)
      { timeout := 5000, interval := 1000, maxAttempts := some 0 } =
      HealthWaitResult.exhausted 5 ∧
    HealthWaitResult.exhausted (5 : Nat) ≠ HealthWaitResult.exhausted 0 :=
  ⟨by decide, by decide⟩

/-- C3 amended: `waitForHealth` uses `config.maxAttempts` only when it
is present **and nonzero** (JavaScript `||` treats `0` as absent);
with `maxAttempts` absent or `0` it uses `floor(timeout / interval)`,
and a zero `maxAttempts` behaves exactly like an absent one. -/
theorem maxAttempts_truthy_semantics (t i m : Nat) (probe : Nat → Bool)
    (dur : Nat → Nat) (hm : m ≠ 0) :
    effectiveMaxAttempts { timeout := t, interval := i, maxAttempts := some m } = m ∧
    effectiveMaxAttempts { timeout := t, interval := i, maxAttempts := some 0 } = t / i ∧
    effectiveMaxAttempts { timeout := t, interval := i, maxAttempts := none } = t / i ∧
    waitForHealthRun probe dur { timeout := t, interval := i, maxAttempts := some 0 } =
      waitForHealthRun probe dur { timeout := t, interval := i, maxAttempts := none } := by
  refine ⟨by simp [effectiveMaxAttempts, hm], by simp [effectiveMaxAttempts], rfl, rfl⟩

/-- Witness for the amended C3 at `maxAttempts = 3`. -/
theorem maxAttempts_truthy_semantics_witness :
    (3 : Nat) ≠ 0 ∧
    effectiveMaxAttempts { timeout := 5000, interval := 1000, maxAttempts := some 3 } = 3 := by
  refine ⟨by decide, ?_⟩
  exact (maxAttempts_truthy_semantics 5000 1000 3 (fun _ => false) (fun _ => 0)
    (by decide)).1

/-- C8: the health probe returns `true` exactly when the transport
succeeded and the response status is in the 2xx success class; every
transport exception and every non-2xx response yields `false` (the
probe is a total function — it never raises). -/
theorem healthCheck_true_iff_2xx (port : Nat) (endpoint : String)
    (fetchResult : Except Unit Nat) :
    serviceHealthCheck port endpoint fetchResult = true ↔
      ∃ status, fetchResult = Except.ok status ∧ 200 ≤ status ∧ status < 300 := by
  cases fetchResult with
  | ok n => simp [serviceHealthCheck, responseOk]
  | error e => simp [serviceHealthCheck]

/-- C4: when the probe already reports healthy, `startService` returns
immediately on both platforms: the only external call is the single
health probe (no find, stop or spawn is logged and the stored status is
untouched), a second call behaves identically, and a `getStatus` read
afterwards reports `running == true` and `state == 'running'`. -/
theorem startService_noop_when_healthy (w : World) (cfg : ServiceConfig) (s : MState)
    (h0 : w.health s.healthCalls = true)
    (h1 : w.health (s.healthCalls + 1) = true)
    (h2 : w.health (s.healthCalls + 1 + 1) = true) :
    unixStartService w cfg s = ({ s with healthCalls := s.healthCalls + 1 }, Except.ok ()) ∧
    unixStartService w cfg { s with healthCalls := s.healthCalls + 1 } =
      ({ s with healthCalls := s.healthCalls + 1 + 1 }, Except.ok ()) ∧
    windowsStartService w cfg s =
      ({ s with healthCalls := s.healthCalls + 1 }, Except.ok ()) ∧
    windowsStartService w cfg { s with healthCalls := s.healthCalls + 1 } =
      ({ s with healthCalls := s.healthCalls + 1 + 1 }, Except.ok ()) ∧
    (getStatusOp w { s with healthCalls := s.healthCalls + 1 + 1 }).2.state =
      ServiceState.running ∧
    (getStatusOp w { s with healthCalls := s.healthCalls + 1 + 1 }).2.running = true := by
  refine ⟨?_, ?_, ?_, ?_, ?_, ?_⟩ <;>
    simp [unixStartService, windowsStartService, getStatusOp, checkHealthOp, h0, h1, h2]

/-- Witness for C4: the always-healthy world, from the initial state. -/
theorem startService_noop_when_healthy_witness :
    unixStartService wAllTrue cfgDefault initState =
      ({ initState with healthCalls := 0 + 1 }, Except.ok ()) ∧
    windowsStartService wAllTrue cfgDefault initState =
      ({ initState with healthCalls := 0 + 1 }, Except.ok ()) := by
  have h := startService_noop_when_healthy wAllTrue cfgDefault initState rfl rfl rfl
  exact ⟨h.1, h.2.2.1⟩

/-- C5 counterexample: in a world where every health probe fails (so
`checkHealth()` returns `false`), the Unix `stopService` still invokes a
process-control primitive: its unconditional `stopProcess('ollama')`
performs a `findProcess` lookup, so the op log is not empty. -/
theorem stopService_idempotence_counterexample :
    (unixStopService wAllFail initState).1.ops = [PrimOp.find] ∧
    [PrimOp.find] ≠ ([] : List PrimOp) :=
  ⟨by decide, by decide⟩

/-- C5 amended: the idempotent-stop contract holds for the Windows
strategy only — when the probe reports unhealthy it transitions to
`stopped` and performs no process operation.  The Unix strategy never
consults the probe: it always calls `stopProcess`, which performs a
`findProcess`; when no process is found it still returns success with
state `stopped`, but a process-control primitive has been invoked. -/
theorem stopService_idempotent_windows_only (w₁ w₂ : World) (s₁ s₂ : MState)
    (h₁ : w₁.health s₁.healthCalls = false)
    (hnone : w₂.findRes s₂.findCalls = none) :
    windowsStopService w₁ s₁ =
      ({ s₁ with
          healthCalls := s₁.healthCalls + 1
          status := { s₁.status with running := false, state := ServiceState.stopped } },
       Except.ok ()) ∧
    unixStopService w₂ s₂ =
      ({ s₂ with
          findCalls := s₂.findCalls + 1
          ops := s₂.ops ++ [PrimOp.find]
          status := { s₂.status with running := false, state := ServiceState.stopped } },
       Except.ok ()) := by
  constructor
  · simp [windowsStopService, checkHealthOp, h₁, setStoppedStatus]
  · simp [unixStopService, unixStopProcess, findProcessOp, hnone, setStateField,
      setStoppedStatus]

/-- Witness for the amended C5: unhealthy world, initial state, no
process found. -/
theorem stopService_idempotent_windows_only_witness :
    windowsStopService wAllFail initState =
      ({ initState with
          healthCalls := 0 + 1
          status := { initialStatus with running := false, state := ServiceState.stopped } },
       Except.ok ()) :=
  (stopService_idempotent_windows_only wAllFail wAllFail initState initState rfl rfl).1

/-- C7: `getStatus` performs a fresh probe on every call: the returned
copy's `running` equals the probe outcome of that very call, `state`
follows it, the probe counter advances, the stored status equals the
returned copy; and when the probe flips from failing to succeeding
between two calls, the second `getStatus` reports `running == true`
with no intervening `startService`. -/
theorem getStatus_fresh_probe (w : World) (s : MState)
    (h0 : w.health s.healthCalls = false)
    (h1 : w.health (s.healthCalls + 1) = true) :
    (∀ (v : World) (t : MState),
        (getStatusOp v t).2.running = v.health t.healthCalls ∧
        (getStatusOp v t).2.state =
          (if v.health t.healthCalls then ServiceState.running else ServiceState.stopped) ∧
        (getStatusOp v t).1.healthCalls = t.healthCalls + 1 ∧
        (getStatusOp v t).1.status = (getStatusOp v t).2) ∧
    (getStatusOp w s).2.running = false ∧
    (getStatusOp w (getStatusOp w s).1).2.running = true ∧
    (getStatusOp w (getStatusOp w s).1).2.state = ServiceState.running := by
  refine ⟨fun v t => ⟨rfl, rfl, rfl, rfl⟩, ?_, ?_, ?_⟩ <;>
    simp [getStatusOp, checkHealthOp, h0, h1]

/-- Witness for C7: the probe fails on its first call and succeeds on
the second; the two `getStatus` reads report the flip. -/
theorem getStatus_fresh_probe_witness :
    (getStatusOp wFlip initState).2.running = false ∧
    (getStatusOp wFlip (getStatusOp wFlip initState).1).2.running = true := by
  have h := getStatus_fresh_probe wFlip initState (by decide) (by decide)
  exact ⟨h.2.1, h.2.2.1⟩

/-- C2 counterexample: when the health wait fails inside
`startService`, the `HealthCheckError` does **not** reach the caller
unchanged — the catch block wraps it in a `PlatformError` (it is not an
`instanceof ProcessError/ServiceError`) — and the manager does **not**
transition to `state == 'error'` nor record `lastError`: the final
status is the `getStatus` refresh `running: false, state: 'stopped'`. -/
theorem startService_failure_counterexample :
    (unixStartService wAllFail cfgDefault initState).2 =
      Except.error (SvcErr.platformError "Failed to start service on Unix platform"
        "unix" "start"
        (SvcErr.healthCheckError "Health check failed after maximum attempts"
          { running := false, state := ServiceState.stopped, pid := none,
            lastError := none } 5)) ∧
    (unixStartService wAllFail cfgDefault initState).1.status.state ≠
      ServiceState.error ∧
    (unixStartService wAllFail cfgDefault initState).1.status.lastError = none :=
  ⟨rfl, by decide, rfl⟩

/-- C2 amended: `startService` failures do reach the caller, but not as
the claim states.  A stray-process stop failure raises `ProcessError`
unchanged, while a health-wait failure (`HealthCheckError`) is re-wrapped
in a `PlatformError` (cause preserved).  In neither case does the
manager transition to `state == 'error'` or record `lastError`: after a
stray-stop failure the status remains `'starting'`, and after a
health-wait failure it is the last `getStatus` refresh (`'stopped'`
when unhealthy). -/
theorem startService_failure_propagation (w₁ w₂ : World) (cfg : ServiceConfig)
    (s₁ s₂ : MState) (p₁ p₂ : Int)
    (h₁ : w₁.health s₁.healthCalls = false)
    (hf₁ : w₁.findRes s₁.findCalls = some p₁)
    (hf₂ : w₁.findRes (s₁.findCalls + 1) = some p₂)
    (hk : w₁.stopOk s₁.stopCalls = false)
    (hall : ∀ k, w₂.health k = false)
    (hnone : w₂.findRes s₂.findCalls = none)
    (hspawn : w₂.spawnOk s₂.spawnCalls = true)
    (hint : 0 < cfg.healthCheck.interval) :
    (unixStartService w₁ cfg s₁).2 =
      Except.error (SvcErr.processError "Failed to stop existing process" "ollama"
        ProcOperation.stop) ∧
    (unixStartService w₁ cfg s₁).1.status.state = ServiceState.starting ∧
    (unixStartService w₁ cfg s₁).1.status.lastError = s₁.status.lastError ∧
    (unixStartService w₂ cfg s₂).2 =
      Except.error (SvcErr.platformError "Failed to start service on Unix platform"
        "unix" "start"
        (SvcErr.healthCheckError "Health check failed after maximum attempts"
          { s₂.status with running := false, state := ServiceState.stopped }
          (cfg.healthCheck.timeout / cfg.healthCheck.interval))) ∧
    (unixStartService w₂ cfg s₂).1.status.state = ServiceState.stopped ∧
    (unixStartService w₂ cfg s₂).1.status.lastError = s₂.status.lastError := by
  have part1 :
      unixStartService w₁ cfg s₁ =
        ({ s₁ with
            healthCalls := s₁.healthCalls + 1
            findCalls := s₁.findCalls + 1 + 1
            stopCalls := s₁.stopCalls + 1
            ops := s₁.ops ++ [PrimOp.find, PrimOp.find, PrimOp.gracefulStop]
            status := { s₁.status with state := ServiceState.starting } },
         Except.error (SvcErr.processError "Failed to stop existing process" "ollama"
           ProcOperation.stop)) := by
    simp [unixStartService, checkHealthOp, h₁, isProcessRunningOp, findProcessOp,
      hf₁, hf₂, hk, unixStopProcess, gracefulStopOp, setStateField, wrapPlatform,
      isRethrownUnchanged]
  have hbound := elapsed_lt_of_lt_div cfg.healthCheck.timeout cfg.healthCheck.interval hint
  have part2 :
      unixStartService w₂ cfg s₂ =
        ({ s₂ with
            healthCalls := s₂.healthCalls + 1 +
              (cfg.healthCheck.timeout / cfg.healthCheck.interval) + 1
            findCalls := s₂.findCalls + 1
            spawnCalls := s₂.spawnCalls + 1
            ops := s₂.ops ++ [PrimOp.find, PrimOp.spawn]
            status := { s₂.status with running := false, state := ServiceState.stopped } },
         Except.error (SvcErr.platformError "Failed to start service on Unix platform"
           "unix" "start"
           (SvcErr.healthCheckError "Health check failed after maximum attempts"
             { s₂.status with running := false, state := ServiceState.stopped }
             (cfg.healthCheck.timeout / cfg.healthCheck.interval)))) := by
    simp only [unixStartService, checkHealthOp, hall, Bool.false_eq_true, if_false,
      isProcessRunningOp, findProcessOp, hnone, Option.isSome_none, spawnOp, hspawn,
      if_true, setStateField, managerWaitForHealth]
    rw [mWaitLoop_allFail w₂ cfg.healthCheck.timeout cfg.healthCheck.interval hall
      (cfg.healthCheck.timeout / cfg.healthCheck.interval) 0 0 _ hbound]
    simp [wrapPlatform, isRethrownUnchanged]
  refine ⟨?_, ?_, ?_, ?_, ?_, ?_⟩ <;> simp [part1, part2]

/-- Witness for the amended C2: concrete worlds for both failure modes
(stray-stop failure; always-failing probe with successful spawn). -/
theorem startService_failure_propagation_witness :
    (unixStartService wStrayStopFail cfgDefault initState).2 =
      Except.error (SvcErr.processError "Failed to stop existing process" "ollama"
        ProcOperation.stop) ∧
    (unixStartService wAllFail cfgDefault initState).1.status.state =
      ServiceState.stopped := by
  have h := startService_failure_propagation
    wStrayStopFail wAllFail cfgDefault
    initState initState 42 42 rfl rfl rfl rfl (fun _ => rfl) rfl rfl (by decide)
  exact ⟨h.1, h.2.2.2.2.1⟩

/-- C6 counterexample: escalation is not uniform across platforms and
never ends in `state == 'error'`.  On Unix a graceful-stop failure
raises `ProcessError` with **zero** forced-stop attempts; on Windows,
with the same failing commands, the operation raises while the status
remains `'stopping'`, not `'error'`. -/
theorem stop_escalation_counterexample :
    (unixStopService wStopFail initState).1.forceCalls = 0 ∧
    (unixStopService wStopFail initState).2 =
      Except.error (SvcErr.processError "Failed to stop process" "ollama"
        ProcOperation.stop) ∧
    (windowsStopService wStopFail initState).1.status.state = ServiceState.stopping ∧
    ServiceState.stopping ≠ ServiceState.error :=
  ⟨by decide, rfl, by decide, by decide⟩

/-- C6 amended: only the Windows strategy escalates, and it attempts the
forced stop **twice** before raising — once inside
`WindowsProcessManager.stopProcess` and once more in the `stopService`
catch block; when all attempts fail it raises `ProcessError` and the
status ends at `'stopping'` (never `'error'`).  The Unix strategy
performs no forced stop at all: a graceful-stop failure raises
`ProcessError` directly, also leaving the status at `'stopping'`. -/
theorem stop_escalation_amended (w₁ w₂ : World) (s₁ s₂ : MState) (p : Int)
    (hh : w₁.health s₁.healthCalls = true)
    (hg : w₁.stopOk s₁.stopCalls = false)
    (hf1 : w₁.forceOk s₁.forceCalls = false)
    (hf2 : w₁.forceOk (s₁.forceCalls + 1) = false)
    (hfind : w₂.findRes s₂.findCalls = some p)
    (hg2 : w₂.stopOk s₂.stopCalls = false) :
    windowsStopService w₁ s₁ =
      ({ s₁ with
          healthCalls := s₁.healthCalls + 1
          stopCalls := s₁.stopCalls + 1
          forceCalls := s₁.forceCalls + 1 + 1
          ops := s₁.ops ++ [PrimOp.gracefulStop, PrimOp.forceStop, PrimOp.forceStop]
          status := { s₁.status with state := ServiceState.stopping } },
       Except.error (SvcErr.processError "Failed to force stop process" "ollama.exe"
         ProcOperation.stop)) ∧
    unixStopService w₂ s₂ =
      ({ s₂ with
          findCalls := s₂.findCalls + 1
          stopCalls := s₂.stopCalls + 1
          ops := s₂.ops ++ [PrimOp.find, PrimOp.gracefulStop]
          status := { s₂.status with state := ServiceState.stopping } },
       Except.error (SvcErr.processError "Failed to stop process" "ollama"
         ProcOperation.stop)) := by
  constructor
  · simp [windowsStopService, checkHealthOp, hh, windowsStopProcess, gracefulStopOp,
      hg, forceStopOp, hf1, hf2, windowsForceStopProcess, setStateField,
      wrapPlatform, isRethrownUnchanged]
  · simp [unixStopService, unixStopProcess, findProcessOp, hfind, gracefulStopOp,
      hg2, setStateField, wrapPlatform, isRethrownUnchanged]

/-- Witness for the amended C6: the healthy world whose stop and force
commands all fail, from the initial state. -/
theorem stop_escalation_amended_witness :
    (windowsStopService wStopFail initState).1.forceCalls = 0 + 1 + 1 ∧
    (unixStopService wStopFail initState).1.stopCalls = 0 + 1 := by
  have h := stop_escalation_amended wStopFail wStopFail initState initState 42
    rfl rfl rfl rfl rfl rfl
  refine ⟨?_, ?_⟩
  · rw [h.1]
    rfl
  · rw [h.2]
    rfl

/-- C9 counterexample: the invariant `running == true ↔ state ==
'running'` is not preserved by every operation.  Reachable sequence: a
`getStatus` while healthy stores `running: true, state: 'running'`; the
service then dies; `startService` sees an unhealthy probe, merges
`state: 'starting'` (leaving `running: true`), and its successful health
wait never rewrites the fields — the final stored status has
`running == true` with `state == 'starting'`. -/
theorem status_invariant_counterexample :
    (unixStartService wBlip cfgDefault (getStatusOp wBlip initState).1).1.status.running =
      true ∧
    (unixStartService wBlip cfgDefault (getStatusOp wBlip initState).1).1.status.state =
      ServiceState.starting ∧
    ServiceState.starting ≠ ServiceState.running :=
  ⟨by decide, by decide, by decide⟩

/-- C9 amended: the invariant `running == true ↔ state == 'running'`
holds for the initial status and for the status stored and returned by
every `getStatus` call (which recomputes both fields from one fresh
probe); it is not an invariant of all reachable states, because the
`'starting'`/`'stopping'` merges leave `running` unchanged. -/
theorem status_invariant_at_reads (w : World) (s : MState) :
    (initialStatus.running = true ↔ initialStatus.state = ServiceState.running) ∧
    ((getStatusOp w s).2.running = true ↔
      (getStatusOp w s).2.state = ServiceState.running) ∧
    ((getStatusOp w s).1.status.running = true ↔
      (getStatusOp w s).1.status.state = ServiceState.running) := by
  refine ⟨by simp [initialStatus], ?_, ?_⟩ <;>
    by_cases h : w.health s.healthCalls <;> simp [getStatusOp, checkHealthOp, h]

/-- C10 counterexample: the Windows `findProcess` does not require a
**nonzero** pid: `tasklist` output whose captured pid field is `"0"`
parses to `0` and yields a `ProcessInfo`, not `null`. -/
theorem findProcess_zero_pid_counterexample :
    windowsFindProcess "ollama" (Except.ok "\"ollama\",\"0\",\"Console\"") =
      some { pid := 0, name := "ollama" } ∧
    (some { pid := 0, name := "ollama" } : Option ProcessInfo) ≠ none :=
  ⟨by decide, by decide⟩

/-- C10 amended: `findProcess` is total at the public interface on both
platforms — it returns `ProcessInfo` or `null` and never raises; a
failing lookup command yields `null` on both platforms; the Unix parse
yields a `ProcessInfo` only for a nonzero pid, while the Windows CSV
match accepts any digit-string pid, including `"0"`. -/
theorem findProcess_total_amended :
    (∀ name, unixFindProcess name (Except.error ()) = none) ∧
    (∀ name, windowsFindProcess name (Except.error ()) = none) ∧
    (∀ name out info, unixFindProcess name (Except.ok out) = some info →
      info.pid ≠ 0) ∧
    windowsFindProcess "ollama" (Except.ok "\"ollama\",\"123\",\"Console\"") =
      some { pid := 123, name := "ollama" } := by
  refine ⟨fun _ => rfl, fun _ => rfl, ?_, by decide⟩
  intro name out info h
  cases hp : jsParseInt out with
  | none => simp [unixFindProcess, hp] at h
  | some pid =>
    by_cases hz : pid = 0
    · simp [unixFindProcess, hp, hz] at h
    · simp [unixFindProcess, hp, hz] at h
      subst h
      simpa using hz

/-- Witness for the amended C10: `pgrep` output `123` parses to the
nonzero pid 123. -/
theorem findProcess_total_amended_witness :
    unixFindProcess "ollama" (Except.ok "123\n") = some { pid := 123, name := "ollama" } ∧
    ({ pid := 123, name := "ollama" } : ProcessInfo).pid ≠ 0 := by
  refine ⟨by decide, ?_⟩
  exact findProcess_total_amended.2.2.1 "ollama" "123\n"
    { pid := 123, name := "ollama" } (by decide)

end OllamaBridge
